import Mathlib

/-!
Verification development for the options pricing & P&L tool.

The definitions below are a shallow embedding over `ℝ` of the pricing and
scenario-P&L core of the repository (`streamlit_app.py`, `options_tool.py`,
`options_app.py`): `calculate_delta`, `black_scholes_price`, `calculate_pnl`,
the summary aggregation of the Streamlit main section, and the arithmetic of
the spreadsheet exporters' cell formulas.  Machine floating point is modelled
by exact real arithmetic; option sides form a closed two-value enumeration.
-/

namespace OptionsTool

/-- The option side: the `option_type` string argument of the Python code,
restricted to its closed enumeration `{"CALL", "PUT"}`. -/
inductive Side
  | CALL
  | PUT
deriving DecidableEq, Repr

export Side (CALL PUT)

/-- `RISK_FREE_RATE = 0.045`, the fixed module-level constant. -/
def RISK_FREE_RATE : ℝ := 0.045

/-- The standard normal cumulative distribution function: both branches of
the Python `normal_cdf` (scipy `norm.cdf` and the `math.erf` fallback
`0.5 * (1 + erf(x / sqrt 2))`) denote this same real function, embedded here
as the CDF of the standard Gaussian measure. -/
noncomputable def normal_cdf (x : ℝ) : ℝ :=
  ProbabilityTheory.cdf (ProbabilityTheory.gaussianReal 0 1) x

/-- `calculate_delta` (identical in all three source files): degenerate
inputs fall back to ±0.5, otherwise the Black-Scholes `d1` term is fed to
the normal CDF.  The function is total: the Python `try/except` around the
arithmetic can never fire on the non-degenerate branch (all arguments are
then strictly positive), and the embedding is a total function. -/
noncomputable def calculate_delta (spot strike time_to_expiry volatility : ℝ)
    (option_type : Side) : ℝ :=
  if time_to_expiry ≤ 0 ∨ volatility ≤ 0 ∨ spot ≤ 0 ∨ strike ≤ 0 then
    match option_type with
    | CALL => 0.5
    | PUT => -0.5
  else
    let d1 := (Real.log (spot / strike)
        + (RISK_FREE_RATE + 0.5 * volatility ^ 2) * time_to_expiry)
      / (volatility * Real.sqrt time_to_expiry)
    match option_type with
    | CALL => normal_cdf d1
    | PUT => normal_cdf d1 - 1

/-- `black_scholes_price` from `streamlit_app.py`: intrinsic value at or past
expiry; `0` for non-positive volatility/spot/strike with positive time;
otherwise the closed-form Black-Scholes value clamped to `≥ 0`. -/
noncomputable def black_scholes_price (spot strike time_to_expiry volatility : ℝ)
    (option_type : Side) : ℝ :=
  if time_to_expiry ≤ 0 then
    match option_type with
    | CALL => max (spot - strike) 0
    | PUT => max (strike - spot) 0
  else if volatility ≤ 0 ∨ spot ≤ 0 ∨ strike ≤ 0 then
    0
  else
    let d1 := (Real.log (spot / strike)
        + (RISK_FREE_RATE + 0.5 * volatility ^ 2) * time_to_expiry)
      / (volatility * Real.sqrt time_to_expiry)
    let d2 := d1 - volatility * Real.sqrt time_to_expiry
    match option_type with
    | CALL =>
        max (spot * normal_cdf d1
          - strike * Real.exp (-RISK_FREE_RATE * time_to_expiry) * normal_cdf d2) 0
    | PUT =>
        max (strike * Real.exp (-RISK_FREE_RATE * time_to_expiry) * normal_cdf (-d2)
          - spot * normal_cdf (-d1)) 0

/-- One row of the options dataframe, restricted to the columns that
`calculate_pnl` reads: `Strike`, `IV`, `Position` (a signed contract count)
and `Entry`. -/
structure ContractRow where
  Strike : ℝ
  IV : ℝ
  Position : ℤ
  Entry : ℝ

/-- One output row of `calculate_pnl`: the input row together with the five
computed columns `ScenValue`, `PremPaid`, `PremRcvd`, `Payout`, `P&L`. -/
structure PnlRow where
  base : ContractRow
  ScenValue : ℝ
  PremPaid : ℝ
  PremRcvd : ℝ
  Payout : ℝ
  PnL : ℝ

/-- The `ScenValue` column of `calculate_pnl`: intrinsic value
(`clip(lower=0)` is `max · 0`) when `days_to_scenario ≤ 0`, otherwise the
Black-Scholes price at `days/365` years with effective volatility
`IV * (1 + iv_adjustment)` when `IV > 0` and the `0.3` default otherwise. -/
noncomputable def scenValueRow (stock_scenario : ℝ) (option_type : Side)
    (days_to_scenario : ℤ) (iv_adjustment : ℝ) (r : ContractRow) : ℝ :=
  if days_to_scenario ≤ 0 then
    match option_type with
    | CALL => max (stock_scenario - r.Strike) 0
    | PUT => max (r.Strike - stock_scenario) 0
  else
    black_scholes_price stock_scenario r.Strike ((days_to_scenario : ℝ) / 365)
      (if r.IV > 0 then r.IV * (1 + iv_adjustment) else 0.3) option_type

/-- The `PremPaid` column: `Entry * Position * 100` if `Position > 0` else `0`. -/
def premPaidRow (r : ContractRow) : ℝ :=
  if r.Position > 0 then r.Entry * (r.Position : ℝ) * 100 else 0

/-- The `PremRcvd` column: `Entry * -Position * 100` if `Position < 0` else `0`. -/
def premRcvdRow (r : ContractRow) : ℝ :=
  if r.Position < 0 then r.Entry * (-(r.Position : ℝ)) * 100 else 0

/-- The row-wise body of `calculate_pnl`: all five computed columns for one
row, with `Payout = ScenValue * Position * 100` and
`P&L = Payout - PremPaid + PremRcvd`. -/
noncomputable def pnlRow (stock_scenario : ℝ) (option_type : Side)
    (days_to_scenario : ℤ) (iv_adjustment : ℝ) (r : ContractRow) : PnlRow :=
  let sv := scenValueRow stock_scenario option_type days_to_scenario iv_adjustment r
  let pp := premPaidRow r
  let pr := premRcvdRow r
  let po := sv * (r.Position : ℝ) * 100
  { base := r, ScenValue := sv, PremPaid := pp, PremRcvd := pr,
    Payout := po, PnL := po - pp + pr }

/-- `calculate_pnl` from `streamlit_app.py`: the dataframe is a list of rows
and each computed column is produced row-wise. -/
noncomputable def calculate_pnl (df : List ContractRow) (stock_scenario : ℝ)
    (option_type : Side) (days_to_scenario : ℤ) (iv_adjustment : ℝ) : List PnlRow :=
  df.map (pnlRow stock_scenario option_type days_to_scenario iv_adjustment)

/-- The `df[df['Position'] != 0]` filter used by the summary section. -/
def positioned (rows : List PnlRow) : List PnlRow :=
  rows.filter (fun p => decide (p.base.Position ≠ 0))

/-- The aggregated totals computed in the Streamlit main section. -/
structure Summary where
  total_prem_paid : ℝ
  total_prem_rcvd : ℝ
  total_payout : ℝ
  options_pnl : ℝ
  stock_pnl : ℝ
  total_pnl : ℝ

/-- The summary aggregation of `streamlit_app.py` (main section): filter each
side to rows with `Position != 0`, sum the four cash-flow columns over both
sides, compute `stock_pnl = (stock_scenario - stock_entry) * stock_shares`,
and `total_pnl = options_pnl + stock_pnl`. -/
noncomputable def summarize (calls_pnl puts_pnl : List PnlRow)
    (stock_scenario stock_entry : ℝ) (stock_shares : ℤ) : Summary :=
  let calls_with_pos := positioned calls_pnl
  let puts_with_pos := positioned puts_pnl
  let stock_pnl := (stock_scenario - stock_entry) * (stock_shares : ℝ)
  let opnl := (calls_with_pos.map PnlRow.PnL).sum + (puts_with_pos.map PnlRow.PnL).sum
  { total_prem_paid :=
      (calls_with_pos.map PnlRow.PremPaid).sum + (puts_with_pos.map PnlRow.PremPaid).sum
    total_prem_rcvd :=
      (calls_with_pos.map PnlRow.PremRcvd).sum + (puts_with_pos.map PnlRow.PremRcvd).sum
    total_payout :=
      (calls_with_pos.map PnlRow.Payout).sum + (puts_with_pos.map PnlRow.Payout).sum
    options_pnl := opnl
    stock_pnl := stock_pnl
    total_pnl := opnl + stock_pnl }

/-- The full scenario pipeline of the Streamlit main section: run
`calculate_pnl` on the calls table (side CALL) and the puts table (side PUT)
with the same scenario, then aggregate together with the stock position. -/
noncomputable def engine_summary (calls_df puts_df : List ContractRow)
    (stock_scenario : ℝ) (days_to_scenario : ℤ) (iv_adjustment : ℝ)
    (stock_entry : ℝ) (stock_shares : ℤ) : Summary :=
  summarize (calculate_pnl calls_df stock_scenario CALL days_to_scenario iv_adjustment)
    (calculate_pnl puts_df stock_scenario PUT days_to_scenario iv_adjustment)
    stock_scenario stock_entry stock_shares

/-- Arithmetic of the CLI exporter's per-row P&L cell formula
`=(L{row}-K{row})*J{row}*100` (`options_tool.py`): `(Value@Exp - Entry) *
Position * 100`. -/
def cli_pnl_formula (valueAtExp entry : ℝ) (position : ℤ) : ℝ :=
  (valueAtExp - entry) * (position : ℝ) * 100

/-- Arithmetic of the premiums-paid cell formula `=IF(J>0,K*J*100,0)` of the
desktop/web exporters. -/
def sheet_prem_paid (entry : ℝ) (position : ℤ) : ℝ :=
  if position > 0 then entry * (position : ℝ) * 100 else 0

/-- Arithmetic of the premiums-received cell formula `=IF(J<0,K*-J*100,0)`. -/
def sheet_prem_rcvd (entry : ℝ) (position : ℤ) : ℝ :=
  if position < 0 then entry * (-(position : ℝ)) * 100 else 0

/-- Arithmetic of the payout cell formula `=N*J*100`. -/
def sheet_payout (valueAtExp : ℝ) (position : ℤ) : ℝ :=
  valueAtExp * (position : ℝ) * 100

/-- Arithmetic of the P&L cell formula `=O-L+M` of the desktop/web
exporters: payout minus premium paid plus premium received. -/
def sheet_pnl (valueAtExp entry : ℝ) (position : ℤ) : ℝ :=
  sheet_payout valueAtExp position - sheet_prem_paid entry position
    + sheet_prem_rcvd entry position

/-- The row with its `IV` field replaced, used to state noninterference of
the volatility inputs. -/
def setIV (r : ContractRow) (v : ℝ) : ContractRow :=
  { r with IV := v }

/-- The five computed columns of an output row, used to compare two runs of
`calculate_pnl` on everything they compute (the passthrough of the input
columns aside). -/
def computedCols (p : PnlRow) : ℝ × ℝ × ℝ × ℝ × ℝ :=
  (p.ScenValue, p.PremPaid, p.PremRcvd, p.Payout, p.PnL)

/-- Each output row of `calculate_pnl` satisfies the per-row accounting
identity `P&L = Payout - PremPaid + PremRcvd` by construction. -/
lemma pnlRow_PnL_eq (S : ℝ) (ot : Side) (d : ℤ) (a : ℝ) (r : ContractRow) :
    (pnlRow S ot d a r).PnL
      = (pnlRow S ot d a r).Payout - (pnlRow S ot d a r).PremPaid
        + (pnlRow S ot d a r).PremRcvd := rfl

/-- Summing the per-row identity over a list of rows. -/
lemma sum_pnl_eq (rows : List PnlRow)
    (h : ∀ p ∈ rows, p.PnL = p.Payout - p.PremPaid + p.PremRcvd) :
    (rows.map PnlRow.PnL).sum
      = (rows.map PnlRow.Payout).sum - (rows.map PnlRow.PremPaid).sum
        + (rows.map PnlRow.PremRcvd).sum := by
  induction rows with
  | nil => simp
  | cons a l ih =>
      simp only [List.map_cons, List.sum_cons]
      rw [h a (List.mem_cons_self a l), ih (fun p hp => h p (List.mem_cons_of_mem a hp))]
      ring

/-- Rows surviving the `Position != 0` filter over a `calculate_pnl` output
still satisfy the per-row accounting identity. -/
lemma mem_positioned_pnl (df : List ContractRow) (S : ℝ) (ot : Side) (d : ℤ) (a : ℝ) :
    ∀ p ∈ positioned (calculate_pnl df S ot d a),
      p.PnL = p.Payout - p.PremPaid + p.PremRcvd := by
  intro p hp
  have hp' : p ∈ calculate_pnl df S ot d a := (List.mem_filter.mp hp).1
  obtain ⟨r, _, rfl⟩ := List.mem_map.mp hp'
  rfl

/-- C1: for every contracts table (both sides), every scenario, and every
stock position, the aggregated totals satisfy
`totalPnl = optionsPnl + stockPnl` and
`optionsPnl = totalPayout - totalPremiumsPaid + totalPremiumsReceived`,
exactly, even though the totals are summed only over rows with
`Position != 0` while the per-row quantities are defined for all rows. -/
theorem accounting_identity (calls_df puts_df : List ContractRow)
    (stock_scenario : ℝ) (days_to_scenario : ℤ) (iv_adjustment : ℝ)
    (stock_entry : ℝ) (stock_shares : ℤ) :
    (engine_summary calls_df puts_df stock_scenario days_to_scenario iv_adjustment
        stock_entry stock_shares).total_pnl
      = (engine_summary calls_df puts_df stock_scenario days_to_scenario iv_adjustment
          stock_entry stock_shares).options_pnl
        + (engine_summary calls_df puts_df stock_scenario days_to_scenario iv_adjustment
            stock_entry stock_shares).stock_pnl
    ∧ (engine_summary calls_df puts_df stock_scenario days_to_scenario iv_adjustment
        stock_entry stock_shares).options_pnl
      = (engine_summary calls_df puts_df stock_scenario days_to_scenario iv_adjustment
          stock_entry stock_shares).total_payout
        - (engine_summary calls_df puts_df stock_scenario days_to_scenario iv_adjustment
            stock_entry stock_shares).total_prem_paid
        + (engine_summary calls_df puts_df stock_scenario days_to_scenario iv_adjustment
            stock_entry stock_shares).total_prem_rcvd := by
  constructor
  · rfl
  · have hc := sum_pnl_eq _
      (mem_positioned_pnl calls_df stock_scenario CALL days_to_scenario iv_adjustment)
    have hp := sum_pnl_eq _
      (mem_positioned_pnl puts_df stock_scenario PUT days_to_scenario iv_adjustment)
    simp only [engine_summary, summarize]
    rw [hc, hp]
    ring

/-- C2: every output row of `calculate_pnl` whose `Position` is `0` has
`PremPaid = PremRcvd = Payout = P&L = 0`, regardless of entry price,
scenario value, or any scenario parameter. -/
theorem flat_position_neutral (df : List ContractRow) (stock_scenario : ℝ)
    (option_type : Side) (days_to_scenario : ℤ) (iv_adjustment : ℝ) (p : PnlRow)
    (hmem : p ∈ calculate_pnl df stock_scenario option_type days_to_scenario iv_adjustment)
    (h0 : p.base.Position = 0) :
    p.PremPaid = 0 ∧ p.PremRcvd = 0 ∧ p.Payout = 0 ∧ p.PnL = 0 := by
  obtain ⟨r, _, rfl⟩ := List.mem_map.mp hmem
  have hr : r.Position = 0 := h0
  simp [pnlRow, premPaidRow, premRcvdRow, hr]

/-- Witness for C2 at a concrete flat row. -/
theorem flat_position_neutral_witness :
    (pnlRow 110 CALL 0 0 ⟨100, 0.5, 0, 5⟩).PremPaid = 0
    ∧ (pnlRow 110 CALL 0 0 ⟨100, 0.5, 0, 5⟩).PremRcvd = 0
    ∧ (pnlRow 110 CALL 0 0 ⟨100, 0.5, 0, 5⟩).Payout = 0
    ∧ (pnlRow 110 CALL 0 0 ⟨100, 0.5, 0, 5⟩).PnL = 0 :=
  flat_position_neutral [⟨100, 0.5, 0, 5⟩] 110 CALL 0 0 _
    (List.mem_singleton.mpr rfl) rfl

/-- C3: when `days_to_scenario ≤ 0` the scenario value of every row is pure
intrinsic value at the settlement price: for a CALL it is
`max (S - K) 0` (so exactly `S - K` when `K < S`, exactly `0` at the
inclusive boundary `K = S`, and `0` when `S < K`), and symmetrically
`max (K - S) 0` for a PUT. -/
theorem intrinsic_value_boundary (stock_scenario : ℝ) (days_to_scenario : ℤ)
    (iv_adjustment : ℝ) (r : ContractRow) (hd : days_to_scenario ≤ 0) :
    ((pnlRow stock_scenario CALL days_to_scenario iv_adjustment r).ScenValue
        = max (stock_scenario - r.Strike) 0
      ∧ (r.Strike < stock_scenario →
          (pnlRow stock_scenario CALL days_to_scenario iv_adjustment r).ScenValue
            = stock_scenario - r.Strike)
      ∧ (r.Strike = stock_scenario →
          (pnlRow stock_scenario CALL days_to_scenario iv_adjustment r).ScenValue = 0)
      ∧ (stock_scenario < r.Strike →
          (pnlRow stock_scenario CALL days_to_scenario iv_adjustment r).ScenValue = 0))
    ∧ (pnlRow stock_scenario PUT days_to_scenario iv_adjustment r).ScenValue
        = max (r.Strike - stock_scenario) 0 := by
  have hcall : (pnlRow stock_scenario CALL days_to_scenario iv_adjustment r).ScenValue
      = max (stock_scenario - r.Strike) 0 := by
    simp [pnlRow, scenValueRow, if_pos hd]
  have hput : (pnlRow stock_scenario PUT days_to_scenario iv_adjustment r).ScenValue
      = max (r.Strike - stock_scenario) 0 := by
    simp [pnlRow, scenValueRow, if_pos hd]
  refine ⟨⟨hcall, ?_, ?_, ?_⟩, hput⟩
  · intro h
    rw [hcall, max_eq_left (by linarith)]
  · intro h
    rw [hcall, h, sub_self]
    simp
  · intro h
    rw [hcall, max_eq_right (by linarith)]

/-- Witness for C3 at a concrete in-the-money CALL and at the exact
at-the-money boundary. -/
theorem intrinsic_value_boundary_witness :
    (pnlRow 110 CALL 0 0 ⟨100, 0, 1, 5⟩).ScenValue = 110 - 100
    ∧ (pnlRow 100 CALL 0 0 ⟨100, 0, 1, 5⟩).ScenValue = 0
    ∧ (pnlRow 95 PUT 0 0 ⟨100, 0, 1, 5⟩).ScenValue = max (100 - 95) 0 :=
  ⟨(intrinsic_value_boundary 110 0 0 ⟨100, 0, 1, 5⟩ le_rfl).1.2.1 (by norm_num),
   (intrinsic_value_boundary 100 0 0 ⟨100, 0, 1, 5⟩ le_rfl).1.2.2.1 rfl,
   (intrinsic_value_boundary 95 0 0 ⟨100, 0, 1, 5⟩ le_rfl).2⟩

/-- C6: whenever `time_to_expiry ≤ 0`, or `volatility ≤ 0`, or `spot ≤ 0`,
or `strike ≤ 0`, `calculate_delta` returns exactly `0.5` for CALL and
`-0.5` for PUT, regardless of the other arguments (the embedding is a total
function, so no error is ever raised). -/
theorem delta_degenerate_fallback (spot strike time_to_expiry volatility : ℝ)
    (h : time_to_expiry ≤ 0 ∨ volatility ≤ 0 ∨ spot ≤ 0 ∨ strike ≤ 0) :
    calculate_delta spot strike time_to_expiry volatility CALL = 0.5
    ∧ calculate_delta spot strike time_to_expiry volatility PUT = -0.5 := by
  constructor <;> simp [calculate_delta, if_pos h]

/-- Witness for C6 at `spot = 0` with all other inputs valid. -/
theorem delta_degenerate_fallback_witness :
    calculate_delta 0 100 1 0.4 CALL = 0.5
    ∧ calculate_delta 0 100 1 0.4 PUT = -0.5 :=
  delta_degenerate_fallback 0 100 1 0.4 (Or.inr (Or.inr (Or.inl le_rfl)))

/-- C7: at or past expiry (`time_to_expiry ≤ 0`) `black_scholes_price`
returns exactly the intrinsic value, irrespective of volatility, and for
every input the returned price is nonnegative. -/
theorem price_at_expiry_and_nonneg (spot strike time_to_expiry volatility : ℝ)
    (option_type : Side) :
    (time_to_expiry ≤ 0 →
      black_scholes_price spot strike time_to_expiry volatility option_type
        = match option_type with
          | CALL => max (spot - strike) 0
          | PUT => max (strike - spot) 0)
    ∧ 0 ≤ black_scholes_price spot strike time_to_expiry volatility option_type := by
  constructor
  · intro ht
    cases option_type <;> simp [black_scholes_price, if_pos ht]
  · cases option_type <;>
      · unfold black_scholes_price
        split
        · exact le_max_right _ _
        · split
          · exact le_rfl
          · exact le_max_right _ _

/-- Witness for C7 at a concrete expired in-the-money CALL. -/
theorem price_at_expiry_and_nonneg_witness :
    black_scholes_price 5 3 0 1 CALL = max (5 - 3 : ℝ) 0
    ∧ 0 ≤ black_scholes_price 5 3 0 1 CALL :=
  ⟨(price_at_expiry_and_nonneg 5 3 0 1 CALL).1 le_rfl,
   (price_at_expiry_and_nonneg 5 3 0 1 CALL).2⟩

/-- C8: the CLI exporter's compact per-row P&L formula
`(Value@Exp - Entry) * Position * 100` is algebraically equal, for every
real entry price, real scenario value and integer position of either sign,
to the breakdown `Payout - PremPaid + PremRcvd` emitted by the other
exporters, so the two spreadsheet variants never diverge numerically. -/
theorem exporter_formula_equivalence (valueAtExp entry : ℝ) (position : ℤ) :
    cli_pnl_formula valueAtExp entry position = sheet_pnl valueAtExp entry position := by
  unfold cli_pnl_formula sheet_pnl sheet_payout sheet_prem_paid sheet_prem_rcvd
  rcases lt_trichotomy position 0 with h | h | h
  · rw [if_neg (by omega), if_pos h]
    ring
  · subst h
    simp
  · rw [if_pos h, if_neg (by omega)]
    ring

/-- C4: before expiry (`days_to_scenario > 0`) the scenario value of every
row is the closed-form option price at the settlement price with time
`days_to_scenario / 365` and effective volatility `IV * (1 + iv_adjustment)`
when the row's `IV > 0`, and with the fixed fallback volatility `0.3` when
the `IV` is zero/unknown. -/
theorem pre_expiry_scenario_value (stock_scenario : ℝ) (option_type : Side)
    (days_to_scenario : ℤ) (iv_adjustment : ℝ) (r : ContractRow)
    (hd : 0 < days_to_scenario) :
    (0 < r.IV →
      (pnlRow stock_scenario option_type days_to_scenario iv_adjustment r).ScenValue
        = black_scholes_price stock_scenario r.Strike ((days_to_scenario : ℝ) / 365)
            (r.IV * (1 + iv_adjustment)) option_type)
    ∧ (r.IV ≤ 0 →
      (pnlRow stock_scenario option_type days_to_scenario iv_adjustment r).ScenValue
        = black_scholes_price stock_scenario r.Strike ((days_to_scenario : ℝ) / 365)
            0.3 option_type) := by
  have hd' : ¬ days_to_scenario ≤ 0 := not_le.mpr hd
  constructor
  · intro hiv
    simp [pnlRow, scenValueRow, if_neg hd', if_pos hiv]
  · intro hiv
    simp [pnlRow, scenValueRow, if_neg hd', if_neg (not_lt.mpr hiv)]

/-- Witness for C4 with 30 days to the scenario, once with a known IV and
once with an unknown (zero) IV. -/
theorem pre_expiry_scenario_value_witness :
    (pnlRow 105 CALL 30 0.1 ⟨100, 0.5, 1, 5⟩).ScenValue
      = black_scholes_price 105 100 ((30 : ℤ) / 365 : ℝ) (0.5 * (1 + 0.1)) CALL
    ∧ (pnlRow 105 PUT 30 0.1 ⟨100, 0, 1, 5⟩).ScenValue
      = black_scholes_price 105 100 ((30 : ℤ) / 365 : ℝ) 0.3 PUT :=
  ⟨(pre_expiry_scenario_value 105 CALL 30 0.1 ⟨100, 0.5, 1, 5⟩ (by decide)).1 (by norm_num),
   (pre_expiry_scenario_value 105 PUT 30 0.1 ⟨100, 0, 1, 5⟩ (by decide)).2 le_rfl⟩

/-- On non-degenerate inputs `calculate_delta` is the normal CDF of the
`d1` term for a CALL, and that same value minus one for a PUT. -/
lemma calculate_delta_eq_cdf (spot strike time_to_expiry volatility : ℝ)
    (h : ¬ (time_to_expiry ≤ 0 ∨ volatility ≤ 0 ∨ spot ≤ 0 ∨ strike ≤ 0)) :
    ∃ x, calculate_delta spot strike time_to_expiry volatility CALL = normal_cdf x
      ∧ calculate_delta spot strike time_to_expiry volatility PUT = normal_cdf x - 1 := by
  refine ⟨(Real.log (spot / strike)
        + (RISK_FREE_RATE + 0.5 * volatility ^ 2) * time_to_expiry)
      / (volatility * Real.sqrt time_to_expiry), ?_, ?_⟩ <;>
    simp [calculate_delta, if_neg h]

/-- The normal CDF takes values in `[0, 1]`. -/
lemma normal_cdf_mem (x : ℝ) : 0 ≤ normal_cdf x ∧ normal_cdf x ≤ 1 :=
  ⟨ProbabilityTheory.cdf_nonneg _ x, ProbabilityTheory.cdf_le_one _ x⟩

/-- C5: for every input with `spot > 0`, `strike > 0`, `time_to_expiry > 0`
and `volatility > 0`, `calculate_delta` lies in `[0, 1]` for CALL and in
`[-1, 0]` for PUT (hence always within `[-1, 1]`). -/
theorem delta_bounds (spot strike time_to_expiry volatility : ℝ)
    (hs : 0 < spot) (hk : 0 < strike) (ht : 0 < time_to_expiry) (hv : 0 < volatility) :
    (0 ≤ calculate_delta spot strike time_to_expiry volatility CALL
      ∧ calculate_delta spot strike time_to_expiry volatility CALL ≤ 1)
    ∧ (-1 ≤ calculate_delta spot strike time_to_expiry volatility PUT
      ∧ calculate_delta spot strike time_to_expiry volatility PUT ≤ 0) := by
  have hcond : ¬ (time_to_expiry ≤ 0 ∨ volatility ≤ 0 ∨ spot ≤ 0 ∨ strike ≤ 0) := by
    push_neg
    exact ⟨ht, hv, hs, hk⟩
  obtain ⟨x, hcall, hput⟩ :=
    calculate_delta_eq_cdf spot strike time_to_expiry volatility hcond
  obtain ⟨h0, h1⟩ := normal_cdf_mem x
  rw [hcall, hput]
  refine ⟨⟨h0, h1⟩, by linarith, by linarith⟩

/-- Witness for C5 at an at-the-money contract with one year to expiry. -/
theorem delta_bounds_witness :
    (0 ≤ calculate_delta 100 100 1 0.4 CALL
      ∧ calculate_delta 100 100 1 0.4 CALL ≤ 1)
    ∧ (-1 ≤ calculate_delta 100 100 1 0.4 PUT
      ∧ calculate_delta 100 100 1 0.4 PUT ≤ 0) :=
  delta_bounds 100 100 1 0.4 (by norm_num) (by norm_num) (by norm_num) (by norm_num)

/-- At or past expiry the five computed columns of a row depend only on the
settlement price, the side, and the row's `Strike`, `Position` and `Entry`:
neither the volatility adjustment nor the row's `IV` field can reach them. -/
lemma computedCols_expiry_congr (S : ℝ) (ot : Side) (d : ℤ) (a a' : ℝ)
    (r r' : ContractRow) (hd : d ≤ 0)
    (hK : r'.Strike = r.Strike) (hP : r'.Position = r.Position)
    (hE : r'.Entry = r.Entry) :
    computedCols (pnlRow S ot d a r) = computedCols (pnlRow S ot d a' r') := by
  simp [computedCols, pnlRow, scenValueRow, if_pos hd, premPaidRow, premRcvdRow,
    hK, hP, hE]

/-- C9: with `days_to_scenario ≤ 0`, two runs of `calculate_pnl` that agree
on the settlement price produce identical computed columns even when their
`iv_adjustment` arguments differ, and the computed columns are likewise
unchanged when every contract's `IV` field is arbitrarily altered: at or
past expiry the volatility inputs have no influence on any scenario value,
premium, payout, or P&L. -/
theorem vol_noninterference_at_expiry (df : List ContractRow) (stock_scenario : ℝ)
    (option_type : Side) (days_to_scenario : ℤ) (adj adj' : ℝ)
    (g : ContractRow → ℝ) (hd : days_to_scenario ≤ 0) :
    (calculate_pnl df stock_scenario option_type days_to_scenario adj).map computedCols
      = (calculate_pnl df stock_scenario option_type days_to_scenario adj').map
          computedCols
    ∧ (calculate_pnl df stock_scenario option_type days_to_scenario adj).map
          computedCols
      = (calculate_pnl (df.map fun r => setIV r (g r)) stock_scenario option_type
          days_to_scenario adj).map computedCols := by
  constructor
  · unfold calculate_pnl
    rw [List.map_map, List.map_map]
    refine List.map_congr_left fun r _ => ?_
    exact computedCols_expiry_congr stock_scenario option_type days_to_scenario
      adj adj' r r hd rfl rfl rfl
  · unfold calculate_pnl
    rw [List.map_map, List.map_map, List.map_map]
    refine List.map_congr_left fun r _ => ?_
    exact computedCols_expiry_congr stock_scenario option_type days_to_scenario
      adj adj r (setIV r (g r)) hd rfl rfl rfl

/-- Witness for C9: one row at expiry, comparing adjustment `0` against `1`
and the original `IV` against a constant replacement `9`. -/
theorem vol_noninterference_at_expiry_witness :
    (calculate_pnl [⟨100, 0.5, 2, 5⟩] 110 CALL 0 0).map computedCols
      = (calculate_pnl [⟨100, 0.5, 2, 5⟩] 110 CALL 0 1).map computedCols
    ∧ (calculate_pnl [⟨100, 0.5, 2, 5⟩] 110 CALL 0 0).map computedCols
      = (calculate_pnl ([⟨100, 0.5, 2, 5⟩].map fun r => setIV r ((fun _ => 9) r))
          110 CALL 0 0).map computedCols :=
  vol_noninterference_at_expiry [⟨100, 0.5, 2, 5⟩] 110 CALL 0 0 1 (fun _ => 9) le_rfl

/-- With positive time but a non-positive volatility, spot or strike, the
Black-Scholes pricer returns exactly `0`. -/
lemma black_scholes_price_zero (spot strike time_to_expiry volatility : ℝ)
    (ot : Side) (ht : 0 < time_to_expiry)
    (h : volatility ≤ 0 ∨ spot ≤ 0 ∨ strike ≤ 0) :
    black_scholes_price spot strike time_to_expiry volatility ot = 0 := by
  unfold black_scholes_price
  rw [if_neg (not_le.mpr ht), if_pos h]

/-- C10: with `time_to_expiry > 0` and non-positive volatility (or spot or
strike), `black_scholes_price` returns exactly `0` — not the intrinsic value
and not a `±0.5` fallback — so a positive-time scenario whose effective
volatility is non-positive (`IV > 0` but `iv_adjustment ≤ -1`) values the
contract at `0` even when it is deep in the money. -/
theorem zero_price_edge (spot strike time_to_expiry volatility stock_scenario : ℝ)
    (option_type : Side) (days_to_scenario : ℤ) (iv_adjustment : ℝ)
    (r : ContractRow) :
    (0 < time_to_expiry → volatility ≤ 0 ∨ spot ≤ 0 ∨ strike ≤ 0 →
      black_scholes_price spot strike time_to_expiry volatility option_type = 0)
    ∧ (0 < days_to_scenario → 0 < r.IV → iv_adjustment ≤ -1 →
      (pnlRow stock_scenario option_type days_to_scenario iv_adjustment r).ScenValue
        = 0) := by
  constructor
  · intro ht h
    exact black_scholes_price_zero spot strike time_to_expiry volatility option_type ht h
  · intro hd hiv hadj
    have hT : (0 : ℝ) < (days_to_scenario : ℝ) / 365 := by
      have : (0 : ℝ) < (days_to_scenario : ℝ) := by exact_mod_cast hd
      linarith
    have hvol : r.IV * (1 + iv_adjustment) ≤ 0 :=
      mul_nonpos_of_nonneg_of_nonpos (le_of_lt hiv) (by linarith)
    have hsv : (pnlRow stock_scenario option_type days_to_scenario iv_adjustment r).ScenValue
        = black_scholes_price stock_scenario r.Strike ((days_to_scenario : ℝ) / 365)
            (r.IV * (1 + iv_adjustment)) option_type := by
      simp [pnlRow, scenValueRow, if_neg (not_le.mpr hd), if_pos hiv]
    rw [hsv]
    exact black_scholes_price_zero _ _ _ _ option_type hT (Or.inl hvol)

/-- Witness for C10: a zero-volatility price with one year of time, and a
deep-in-the-money CALL row valued at `0` under `iv_adjustment = -1`. -/
theorem zero_price_edge_witness :
    black_scholes_price 100 50 1 0 CALL = 0
    ∧ (pnlRow 200 CALL 30 (-1) ⟨50, 0.5, 1, 5⟩).ScenValue = 0 :=
  ⟨(zero_price_edge 100 50 1 0 200 CALL 30 (-1) ⟨50, 0.5, 1, 5⟩).1
      (by norm_num) (Or.inl le_rfl),
   (zero_price_edge 100 50 1 0 200 CALL 30 (-1) ⟨50, 0.5, 1, 5⟩).2
      (by decide) (by norm_num) le_rfl⟩

end OptionsTool
